import Mathlib

/- Shallow embedding of mjdusa/aws-go-tools: two command-line utilities,
   a CloudFormation stack scanner (cmd/scan-stacks/main.go) and an ECS task
   log fetcher. Pure Go helpers become Lean functions; AWS backends become
   explicit response lists; process termination (log.Fatalf, panic) and
   nil-pointer dereferences become explicit outcome constructors. -/

/-- Model of Go time.Time at second resolution (the programs only ever use
unix-second arithmetic on values of this type). External dependency. -/
structure GoTime where
  unixSec : Int
deriving DecidableEq, Repr

/-- Model of Go time.Time.Add restricted to whole-second durations
(external dependency; the scanner and fetcher only use -1 hour). -/
def GoTime.addSeconds (t : GoTime) (d : Int) : GoTime :=
  ⟨t.unixSec + d⟩

/-- Model of Go time.Time.Unix (external dependency). -/
def GoTime.unix (t : GoTime) : Int :=
  t.unixSec

/-- Value of the Go constant time.RFC3339 (external dependency). -/
def timeRFC3339 : String :=
  "2006-01-02T15:04:05Z07:00"

/-- Modelled from Go time.Time.Format (external dependency): treated as an
injective rendering of the time together with the layout string actually
passed; the repository code under verification only chooses which layout is
passed, never the rendering itself. -/
def GoTime.format (t : GoTime) (layout : String) : String :=
  "time(" ++ toString t.unixSec ++ "@" ++ layout ++ ")"

/-- Modelled from Go time.UnixMilli followed by time.Time.String (external
dependency): an injective rendering of the millisecond epoch, as used for
log-event timestamps. -/
def unixMilliString (ms : Int) : String :=
  "unixMilli(" ++ toString ms ++ ")"

/-- The CloudFormation StackStatus enum of aws-sdk-go-v2
(service/cloudformation/types), all 23 values. External dependency. -/
inductive StackStatus where
  | createInProgress
  | createFailed
  | createComplete
  | rollbackInProgress
  | rollbackFailed
  | rollbackComplete
  | deleteInProgress
  | deleteFailed
  | deleteComplete
  | updateInProgress
  | updateCompleteCleanupInProgress
  | updateComplete
  | updateFailed
  | updateRollbackInProgress
  | updateRollbackFailed
  | updateRollbackCompleteCleanupInProgress
  | updateRollbackComplete
  | reviewInProgress
  | importInProgress
  | importComplete
  | importRollbackInProgress
  | importRollbackFailed
  | importRollbackComplete
deriving DecidableEq, Repr, Fintype

/-- The wire string of each StackStatus value, as printed by the scanner
via the %s verb (external dependency). -/
def StackStatus.toWire : StackStatus → String
  | .createInProgress => "CREATE_IN_PROGRESS"
  | .createFailed => "CREATE_FAILED"
  | .createComplete => "CREATE_COMPLETE"
  | .rollbackInProgress => "ROLLBACK_IN_PROGRESS"
  | .rollbackFailed => "ROLLBACK_FAILED"
  | .rollbackComplete => "ROLLBACK_COMPLETE"
  | .deleteInProgress => "DELETE_IN_PROGRESS"
  | .deleteFailed => "DELETE_FAILED"
  | .deleteComplete => "DELETE_COMPLETE"
  | .updateInProgress => "UPDATE_IN_PROGRESS"
  | .updateCompleteCleanupInProgress => "UPDATE_COMPLETE_CLEANUP_IN_PROGRESS"
  | .updateComplete => "UPDATE_COMPLETE"
  | .updateFailed => "UPDATE_FAILED"
  | .updateRollbackInProgress => "UPDATE_ROLLBACK_IN_PROGRESS"
  | .updateRollbackFailed => "UPDATE_ROLLBACK_FAILED"
  | .updateRollbackCompleteCleanupInProgress => "UPDATE_ROLLBACK_COMPLETE_CLEANUP_IN_PROGRESS"
  | .updateRollbackComplete => "UPDATE_ROLLBACK_COMPLETE"
  | .reviewInProgress => "REVIEW_IN_PROGRESS"
  | .importInProgress => "IMPORT_IN_PROGRESS"
  | .importComplete => "IMPORT_COMPLETE"
  | .importRollbackInProgress => "IMPORT_ROLLBACK_IN_PROGRESS"
  | .importRollbackFailed => "IMPORT_ROLLBACK_FAILED"
  | .importRollbackComplete => "IMPORT_ROLLBACK_COMPLETE"

/-- The cfTypes.StackSummary fields read by scan-stacks/main.go; pointer
fields become Option (nil = none). -/
structure StackSummary where
  stackId : Option String
  stackName : Option String
  stackStatus : StackStatus
  stackStatusReason : Option String
  parentId : Option String
  rootId : Option String
  creationTime : Option GoTime
  lastUpdatedTime : Option GoTime
  deletionTime : Option GoTime
deriving DecidableEq, Repr

/-- The cfTypes.StackResourceSummary fields read by scan-stacks/main.go;
ResourceStatus is modelled by its wire string. -/
structure StackResourceSummary where
  physicalResourceId : Option String
  logicalResourceId : Option String
  resourceType : Option String
  resourceStatus : String
  resourceStatusReason : Option String
  lastUpdatedTimestamp : Option GoTime
deriving DecidableEq, Repr

/-- One page of a paginated AWS list response: the items plus the
continuation token (nil token = last page). -/
structure Page (α : Type) where
  items : List α
  nextToken : Option String
deriving DecidableEq, Repr

/-- One backend response to a paginated call: a page, or an API error. -/
inductive ApiResp (α : Type) where
  | ok (page : Page α)
  | err (msg : String)
deriving DecidableEq, Repr

/-- Outcome of one of the scanner's paginated list helpers. log.Fatalf
terminates the process, so an API error becomes fatalExit (carrying exit
code 1 and the logged message) and the partial accumulation is lost; hung
marks a backend that never served a final page (the Go loop would keep
requesting). -/
inductive ListResult (α : Type) where
  | ok (items : List α)
  | fatalExit (code : Nat) (logMsg : String)
  | hung
deriving DecidableEq, Repr

/-- Prepend already-accumulated items to a successful result, leaving a
fatal exit or a hung loop unchanged (the Go process keeps nothing). -/
def ListResult.mapOk {α : Type} (f : List α → List α) : ListResult α → ListResult α
  | .ok items => .ok (f items)
  | .fatalExit c m => .fatalExit c m
  | .hung => .hung

/-- Record of one paginated run: every request the loop sent, in order,
and the final outcome. -/
structure PagedCall (ι α : Type) where
  requests : List ι
  result : ListResult α
deriving DecidableEq, Repr

/-- The shared pagination loop of cloudFormationListStacks and
cloudFormationListStackResources (main.go lines 58 to 110 and 122 to 144):
build the input from the current token, call the backend, on error
log.Fatalf with the given prefix (exit code 1), append the page, stop when
the returned token is nil, otherwise continue with the new token. The
backend is modelled as the list of responses it serves, in order. -/
def runPaginated {ι α : Type} (mkInput : Option String → ι) (errPrefix : String) :
    Option String → List (ApiResp α) → PagedCall ι α
  | tok, [] => ⟨[mkInput tok], .hung⟩
  | tok, .err m :: _ => ⟨[mkInput tok], .fatalExit 1 (errPrefix ++ m)⟩
  | tok, .ok page :: rest =>
      match page.nextToken with
      | none => ⟨[mkInput tok], .ok page.items⟩
      | some t =>
          let r := runPaginated mkInput errPrefix (some t) rest
          ⟨mkInput tok :: r.requests, r.result.mapOk (fun acc => page.items ++ acc)⟩

/-- The ListStacksInput fields set by cloudFormationListStacks. -/
structure ListStacksInput where
  nextToken : Option String
  stackStatusFilter : List StackStatus
deriving DecidableEq, Repr

/-- The StackStatusFilter literal of main.go lines 61 to 91, in source
order; the DELETE_COMPLETE entry is commented out in the source. -/
def stackStatusFilterList : List StackStatus :=
  [ .createInProgress, .createFailed, .createComplete,
    .rollbackInProgress, .rollbackFailed, .rollbackComplete,
    .deleteInProgress, .deleteFailed,
    .updateInProgress, .updateFailed, .updateComplete,
    .updateRollbackInProgress, .updateRollbackFailed,
    .updateRollbackCompleteCleanupInProgress, .updateRollbackComplete,
    .reviewInProgress,
    .importInProgress, .importComplete,
    .importRollbackInProgress, .importRollbackFailed, .importRollbackComplete ]

/-- cloudFormationListStacks (main.go lines 52 to 113): paginated
ListStacks against the backend reached through the ambient config, sending
the status filter on every request. -/
def cloudFormationListStacks (backend : List (ApiResp StackSummary)) :
    PagedCall ListStacksInput StackSummary :=
  runPaginated (fun tok => ⟨tok, stackStatusFilterList⟩) "Unable to ListStacks: " none backend

/-- The ListStackResourcesInput fields set by
cloudFormationListStackResources. -/
structure ListStackResourcesInput where
  stackName : String
  nextToken : Option String
deriving DecidableEq, Repr

/-- cloudFormationListStackResources (main.go lines 116 to 147): paginated
ListStackResources for one stack id; the Fatalf message prefix is the
copy-pasted "Unable to ListStacks: " of the source. -/
def cloudFormationListStackResources (stackID : String)
    (backend : List (ApiResp StackResourceSummary)) :
    PagedCall ListStackResourcesInput StackResourceSummary :=
  runPaginated (fun tok => ⟨stackID, tok⟩) "Unable to ListStacks: " none backend

/-- NilSafeString (main.go lines 246 to 251). -/
def NilSafeString (s : Option String) : String :=
  match s with
  | none => "<nil>"
  | some v => v

/-- NilSafeTime (main.go lines 253 to 263): nil renders as the placeholder,
an empty layout string defaults to time.RFC3339. -/
def NilSafeTime (tmp : Option GoTime) (fmt : String) : String :=
  match tmp with
  | none => "<nil>"
  | some t => t.format (if fmt = "" then timeRFC3339 else fmt)

/-- The verbose per-stack report lines of main.go lines 211 to 221, in
print order. -/
def printStackLines (s : StackSummary) : List String :=
  [ "- Stack:",
    "  - Id: " ++ NilSafeString s.stackId,
    "  - Name: " ++ NilSafeString s.stackName,
    "  - Status: " ++ s.stackStatus.toWire,
    "  - Status Reason: " ++ NilSafeString s.stackStatusReason,
    "  - Parent Id: " ++ NilSafeString s.parentId,
    "  - Root Id: " ++ NilSafeString s.rootId,
    "  - Creation Time: " ++ NilSafeTime s.creationTime "",
    "  - Last Updated Time: " ++ NilSafeTime s.lastUpdatedTime "",
    "  - Deletion Time: " ++ NilSafeTime s.deletionTime "" ]

/-- The verbose per-resource report lines of main.go lines 231 to 237, in
print order. -/
def printResourceLines (r : StackResourceSummary) : List String :=
  [ "  - Stack Resource:",
    "     - Physical Resource Id: " ++ NilSafeString r.physicalResourceId,
    "     - Logical Resource Id: " ++ NilSafeString r.logicalResourceId,
    "     - Resource Type: " ++ NilSafeString r.resourceType,
    "     - Status: " ++ r.resourceStatus,
    "     - Status Reason: " ++ NilSafeString r.resourceStatusReason,
    "     - Last Updated Time: " ++ NilSafeTime r.lastUpdatedTimestamp "" ]

/-- A reason the scanner process stops before finishing its loops:
log.Fatalf (with its exit code), a nil-pointer dereference panic, or a
backend that never served a final page. -/
inductive Halt where
  | fatal (code : Nat)
  | nilDeref
  | stuck
deriving DecidableEq, Repr

/-- The ambient AWS config of the scanner: loaded once before the region
loop and never rebuilt, so it carries one fixed region. -/
structure Config where
  region : String
deriving DecidableEq, Repr

/-- The mocked AWS world behind the scanner: ListStacks responses keyed by
the region of the config used for the call, and ListStackResources
responses keyed by stack id. -/
structure ScanWorld where
  stacksBackend : String → List (ApiResp StackSummary)
  resourcesBackend : String → List (ApiResp StackResourceSummary)

/-- The per-stack body of the scanner's region loop (main.go lines 209 to
240): print the stack summary, dereference stack.StackId without a nil
guard to call cloudFormationListStackResources, and print each resource.
Returns the log lines produced plus the halt, if any, that stopped the
process. -/
def processStacks (world : ScanWorld) : List StackSummary → List String × Option Halt
  | [] => ([], none)
  | s :: rest =>
      let lines := printStackLines s
      match s.stackId with
      | none => (lines, some .nilDeref)
      | some sid =>
          match (cloudFormationListStackResources sid (world.resourcesBackend sid)).result with
          | .fatalExit c m => (lines ++ [m], some (.fatal c))
          | .hung => (lines, some .stuck)
          | .ok rs =>
              let restPair := processStacks world rest
              (lines ++ (rs.map printResourceLines).flatten ++ restPair.1, restPair.2)

/-- The scanner's region loop (main.go lines 200 to 243): for each region
name, log the name, call cloudFormationListStacks with the unchanged
process-wide config, and process the resulting stacks. The error-skip
branches of the source (lines 204 to 207 and 224 to 227) are unreachable
because the list helpers call log.Fatalf before returning an error. -/
def processRegions (cfg : Config) (world : ScanWorld) : List String → List String × Option Halt
  | [] => ([], none)
  | regionName :: rest =>
      let header := "- Region: " ++ regionName
      match (cloudFormationListStacks (world.stacksBackend cfg.region)).result with
      | .fatalExit c m => ([header, m], some (.fatal c))
      | .hung => ([header], some .stuck)
      | .ok stackList =>
          let stackPair := processStacks world stackList
          match stackPair.2 with
          | some h => (header :: stackPair.1, some h)
          | none =>
              let restPair := processRegions cfg world rest
              (header :: stackPair.1 ++ [""] ++ restPair.1, restPair.2)

/-- Final state of one scanner run over its region loop: the log produced
and how the process ended. -/
inductive ScanResult where
  | success (log : List String)
  | fatal (code : Nat) (log : List String)
  | panicked (log : List String)
  | stuck (log : List String)
deriving DecidableEq, Repr

/-- The scanner's region loop as a whole-run outcome. -/
def scanRegions (cfg : Config) (world : ScanWorld) (allRegionNames : List String) : ScanResult :=
  match processRegions cfg world allRegionNames with
  | (log, none) => .success log
  | (log, some (.fatal c)) => .fatal c log
  | (log, some .nilDeref) => .panicked log
  | (log, some .stuck) => .stuck log

/-- The log lines a run produced, whatever its ending. -/
def ScanResult.logLines : ScanResult → List String
  | .success l => l
  | .fatal _ l => l
  | .panicked l => l
  | .stuck l => l

/-- The process exit code of a run: 0 on success, the Fatalf code on a
fatal exit, none when the run panicked or would never finish. -/
def ScanResult.exitCode : ScanResult → Option Nat
  | .success _ => some 0
  | .fatal c _ => some c
  | .panicked _ => none
  | .stuck _ => none

/-- Whether the run died on a nil-pointer dereference. -/
def ScanResult.isNilFault : ScanResult → Bool
  | .panicked _ => true
  | _ => false

/-- The ecsTypes.Container fields read by the fetcher; Name is a pointer
(nil = none). -/
structure Container where
  name : Option String
deriving DecidableEq, Repr

/-- The ecsTypes.Task fields read by the fetcher. -/
structure ECSTask where
  containers : List Container
deriving DecidableEq, Repr

/-- The ecs.DescribeTasksOutput fields read by the fetcher. -/
structure DescribeTasksOutput where
  tasks : List ECSTask
deriving DecidableEq, Repr

/-- Outcome of getTaskLogStreamName: the returned name, the returned
error message, or a nil-pointer dereference panic. -/
inductive NameResult where
  | ok (s : String)
  | err (msg : String)
  | nilFault
deriving DecidableEq, Repr

/-- getTaskLogStreamName (task log fetcher, lines 38 to 58), applied to a
successful DescribeTasks response: zero tasks means the "task not found"
error, an empty container list on the first task means the "no containers
found in task" error, otherwise the first container's Name pointer is
dereferenced and returned. -/
def getTaskLogStreamName (resp : DescribeTasksOutput) : NameResult :=
  match resp.tasks with
  | [] => .err "task not found"
  | task :: _ =>
      match task.containers with
      | [] => .err "no containers found in task"
      | container :: _ =>
          match container.name with
          | none => .nilFault
          | some n => .ok n

/-- Value of the Go constant UnixTimeFactor (task log fetcher, line 17). -/
def UnixTimeFactor : Int := 1000

/-- The cloudwatchlogs.GetLogEventsInput fields set by getLogEvents. -/
structure GetLogEventsInput where
  logGroupName : String
  logStreamName : String
  startTime : Int
  endTime : Int
deriving DecidableEq, Repr

/-- The cloudwatchlogs OutputLogEvent fields read by getLogEvents;
Timestamp and Message are pointers (nil = none). -/
structure OutputLogEvent where
  timestamp : Option Int
  message : Option String
deriving DecidableEq, Repr

/-- Outcome of getLogEvents: the stdout lines printed (one per event,
newline-delimited by the Printf format), a returned pagination error, or a
nil-pointer dereference panic while printing. -/
inductive LogsOutcome where
  | ok (lines : List String)
  | err (msg : String)
  | nilFault (lines : List String)
deriving DecidableEq, Repr

/-- Print one page of events (fetcher lines 78 to 80): each line is the
UnixMilli rendering of the dereferenced Timestamp, a tab, and the
dereferenced Message. -/
def printEvents : List OutputLogEvent → LogsOutcome
  | [] => .ok []
  | e :: rest =>
      match e.timestamp, e.message with
      | some ts, some msg =>
          match printEvents rest with
          | .ok lines => .ok ((unixMilliString ts ++ "\t" ++ msg) :: lines)
          | .err m => .err m
          | .nilFault lines => .nilFault ((unixMilliString ts ++ "\t" ++ msg) :: lines)
      | _, _ => .nilFault []

/-- The pagination-and-print loop of getLogEvents (fetcher lines 71 to
81): the paginator is modelled as the list of pages it serves; a page
error is returned as the function's error, otherwise every event of every
page is printed in arrival order until no pages remain. -/
def drainLogPages : List (Except String (List OutputLogEvent)) → LogsOutcome
  | [] => .ok []
  | Except.error m :: _ => .err ("failed to get log events: " ++ m)
  | Except.ok events :: rest =>
      match printEvents events with
      | .ok lines =>
          match drainLogPages rest with
          | .ok more => .ok (lines ++ more)
          | .err m => .err m
          | .nilFault more => .nilFault (lines ++ more)
      | .err m => .err m
      | .nilFault lines => .nilFault lines

/-- getLogEvents (task log fetcher, lines 60 to 84): build the request for
the trailing window from one hour before now to now, both converted to
millisecond epochs by Unix() times UnixTimeFactor, then drain the
paginator. Returns the request built and the print outcome. -/
def getLogEvents (now : GoTime) (logGroupName logStreamName : String)
    (pages : List (Except String (List OutputLogEvent))) :
    GetLogEventsInput × LogsOutcome :=
  let endTime := now
  let startTime := endTime.addSeconds (-3600)
  let input : GetLogEventsInput :=
    ⟨logGroupName, logStreamName, startTime.unix * UnixTimeFactor, endTime.unix * UnixTimeFactor⟩
  (input, drainLogPages pages)

/-- The process environment of the task log fetcher: none models an unset
variable (Go os.Getenv then yields the empty string). -/
structure FetchEnv where
  awsRegion : Option String
  ecsCluster : Option String
  ecsTaskId : Option String
  logGroupName : Option String
deriving DecidableEq, Repr

/-- Model of Go os.Getenv: the empty string when the variable is unset. -/
def goGetenv (v : Option String) : String :=
  v.getD ""

/-- Outcome of the fetcher's environment phase (main, lines 89 to 107):
either a panic naming the missing variable, or the four resolved values
handed to the network phase. -/
inductive SetupOutcome where
  | panic (msg : String)
  | proceed (region cluster taskID logGroup : String)
deriving DecidableEq, Repr

/-- The fetcher's environment phase, in source order: AWS_REGION defaults
to us-west-2, then ECS_CLUSTER, ECS_TASK_ID and LOG_GROUP_NAME each panic
when empty. -/
def taskLogFetcherSetup (env : FetchEnv) : SetupOutcome :=
  let region0 := goGetenv env.awsRegion
  let region := if region0 = "" then "us-west-2" else region0
  let cluster := goGetenv env.ecsCluster
  if cluster = "" then .panic "ECS_CLUSTER environment variable is required"
  else
    let taskID := goGetenv env.ecsTaskId
    if taskID = "" then .panic "ECS_TASK_ID environment variable is required"
    else
      let logGroup := goGetenv env.logGroupName
      if logGroup = "" then .panic "LOG_GROUP_NAME environment variable is required"
      else .proceed region cluster taskID logGroup

/-- The mocked AWS world behind the fetcher: the DescribeTasks response
(or call error) and the log pages the paginator serves. -/
structure FetchWorld where
  describeTasks : Except String DescribeTasksOutput
  logPages : List (Except String (List OutputLogEvent))

/-- Whole-run outcome of the task log fetcher, with the number of network
calls the run performed. -/
inductive FetchOutcome where
  | panicked (msg : String)
  | fatal (msg : String)
  | nilFault
  | success (stdout : List String)
deriving DecidableEq, Repr

/-- Count the pages the paginator actually served before the run ended. -/
def pagesConsumed : List (Except String (List OutputLogEvent)) → Nat
  | [] => 0
  | Except.error _ :: _ => 1
  | Except.ok _ :: rest => 1 + pagesConsumed rest

/-- The fetcher's main (lines 86 to 130) over a mocked world: environment
phase first (a panic there performs zero network calls), then DescribeTasks
(one call), then the log-event pages. Returns the outcome and the network
call count. -/
def runTaskLogFetcher (env : FetchEnv) (world : FetchWorld) : FetchOutcome × Nat :=
  match taskLogFetcherSetup env with
  | .panic m => (.panicked m, 0)
  | .proceed _ _ _ _ =>
      match world.describeTasks with
      | Except.error m => (.fatal ("failed to get log stream name: failed to describe tasks: " ++ m), 1)
      | Except.ok resp =>
          match getTaskLogStreamName resp with
          | .err m => (.fatal ("failed to get log stream name: " ++ m), 1)
          | .nilFault => (.nilFault, 1)
          | .ok _ =>
              match drainLogPages world.logPages with
              | .ok lines => (.success lines, 1 + pagesConsumed world.logPages)
              | .err m => (.fatal ("failed to get log events: " ++ m), 1 + pagesConsumed world.logPages)
              | .nilFault _ => (.nilFault, 1 + pagesConsumed world.logPages)

/-- A backend made only of successful pages, served in order. -/
def okBackend {α : Type} (pages : List (Page α)) : List (ApiResp α) :=
  pages.map ApiResp.ok

/-- A page sequence as a real AWS backend would serve it: every page but
the last carries a continuation token and the last page carries none. -/
inductive Terminated {α : Type} : List (Page α) → Prop
  | last (p : Page α) : p.nextToken = none → Terminated [p]
  | cons (p : Page α) (t : String) {rest : List (Page α)} :
      p.nextToken = some t → Terminated rest → Terminated (p :: rest)

/-- Every stack carried by a successful page of the backend has a non-nil
stack id. -/
def StacksHaveIds (backend : List (ApiResp StackSummary)) : Prop :=
  ∀ page : Page StackSummary, ApiResp.ok page ∈ backend →
    ∀ s ∈ page.items, s.stackId.isSome

/-- A stack summary with the given id and name, in CREATE_COMPLETE status,
used as concrete test data. -/
def demoStack (id : String) : StackSummary :=
  ⟨some id, some id, .createComplete, none, none, none, some ⟨1700000000⟩, none, none⟩

/-- World for the per-stack failure scenario: one region page with stacks
A, B and C, where listing the resources of B fails. -/
def c1World : ScanWorld :=
  ⟨fun _ => [ApiResp.ok ⟨[demoStack "A", demoStack "B", demoStack "C"], none⟩],
   fun sid => if sid = "B" then [ApiResp.err "backend failure"]
              else [ApiResp.ok ⟨[], none⟩]⟩

/-- World for the per-region failure scenario: the stack-listing call
itself fails. -/
def c1WorldListErr : ScanWorld :=
  ⟨fun _ => [ApiResp.err "region backend failure"],
   fun _ => [ApiResp.ok ⟨[], none⟩]⟩

/-- World whose ListStacks responses differ by the region of the config
used for the call: stack W lives in us-west-2, stack E everywhere else. -/
def c4World : ScanWorld :=
  ⟨fun r => if r = "us-west-2"
      then [ApiResp.ok ⟨[demoStack "W"], none⟩]
      else [ApiResp.ok ⟨[demoStack "E"], none⟩],
   fun _ => [ApiResp.ok ⟨[], none⟩]⟩

/-- A stack summary whose StackId pointer is nil. -/
def c5NilIdStack : StackSummary :=
  ⟨none, some "S", .createComplete, none, none, none, none, none, none⟩

/-- World serving the nil-id stack in a single page. -/
def c5World : ScanWorld :=
  ⟨fun _ => [ApiResp.ok ⟨[c5NilIdStack], none⟩],
   fun _ => [ApiResp.ok ⟨[], none⟩]⟩

/-- A log event all of whose pointer fields are populated. -/
def mkEvent (p : Int × String) : OutputLogEvent :=
  ⟨some p.1, some p.2⟩

/-- The stdout line getLogEvents prints for one populated event. -/
def renderEvent (p : Int × String) : String :=
  unixMilliString p.1 ++ "\t" ++ p.2

theorem runPaginated_okBackend {ι α : Type} (mk : Option String → ι) (ep : String)
    {pages : List (Page α)} (h : Terminated pages) :
    ∀ tok, (runPaginated mk ep tok (okBackend pages)).result
              = ListResult.ok (pages.map Page.items).flatten
         ∧ (runPaginated mk ep tok (okBackend pages)).requests.length = pages.length := by
  induction h with
  | last p hp =>
      intro tok
      simp [okBackend, runPaginated, hp]
  | cons p t hp hrest ih =>
      intro tok
      obtain ⟨h1, h2⟩ := ih (some t)
      simp [okBackend, runPaginated, hp] at h1 h2 ⊢
      simp [h1, h2, ListResult.mapOk]

theorem runPaginated_requests_shape {ι α : Type} (mk : Option String → ι) (ep : String) :
    ∀ (backend : List (ApiResp α)) (tok : Option String),
      ∀ inp ∈ (runPaginated mk ep tok backend).requests, ∃ t, inp = mk t := by
  intro backend
  induction backend with
  | nil =>
      intro tok inp h
      simp [runPaginated] at h
      exact ⟨tok, h⟩
  | cons resp rest ih =>
      intro tok inp h
      cases resp with
      | err m =>
          simp [runPaginated] at h
          exact ⟨tok, h⟩
      | ok page =>
          cases hpt : page.nextToken with
          | none =>
              simp [runPaginated, hpt] at h
              exact ⟨tok, h⟩
          | some t =>
              simp [runPaginated, hpt] at h
              rcases h with h | h
              · exact ⟨tok, h⟩
              · exact ih (some t) inp h

theorem runPaginated_ok_mem {ι α : Type} (mk : Option String → ι) (ep : String) :
    ∀ (backend : List (ApiResp α)) (tok : Option String) (items : List α),
      (runPaginated mk ep tok backend).result = ListResult.ok items →
      ∀ x ∈ items, ∃ page, ApiResp.ok page ∈ backend ∧ x ∈ page.items := by
  intro backend
  induction backend with
  | nil =>
      intro tok items h
      simp [runPaginated] at h
  | cons resp rest ih =>
      intro tok items h x hx
      cases resp with
      | err m =>
          simp [runPaginated] at h
      | ok page =>
          cases hpt : page.nextToken with
          | none =>
              simp [runPaginated, hpt] at h
              subst h
              exact ⟨page, by simp, hx⟩
          | some t =>
              simp [runPaginated, hpt] at h
              cases hr : (runPaginated mk ep (some t) rest).result with
              | ok acc =>
                  rw [hr] at h
                  simp [ListResult.mapOk] at h
                  subst h
                  rcases List.mem_append.mp hx with hx2 | hx2
                  · exact ⟨page, by simp, hx2⟩
                  · obtain ⟨pg, hpg, hxpg⟩ := ih (some t) acc hr x hx2
                    exact ⟨pg, by simp [hpg], hxpg⟩
              | fatalExit c m =>
                  rw [hr] at h
                  simp [ListResult.mapOk] at h
              | hung =>
                  rw [hr] at h
                  simp [ListResult.mapOk] at h

/-- C6: NilSafeString and NilSafeTime render a nil input as the literal
placeholder, and NilSafeString is the identity on a non-nil input. -/
theorem c6_nilsafe_formatters :
    NilSafeString none = "<nil>"
  ∧ (∀ s : String, NilSafeString (some s) = s)
  ∧ (∀ f : String, NilSafeTime none f = "<nil>") :=
  ⟨rfl, fun _ => rfl, fun _ => rfl⟩

/-- C10: on a non-nil time, NilSafeTime with the empty layout renders via
the RFC3339 layout, and with any non-empty layout renders via that
layout. -/
theorem c10_nilsafetime_layout :
    (∀ t : GoTime, NilSafeTime (some t) "" = t.format timeRFC3339)
  ∧ (∀ (t : GoTime) (f : String), f ≠ "" → NilSafeTime (some t) f = t.format f) := by
  constructor
  · intro t
    rfl
  · intro t f hf
    simp [NilSafeTime, hf]

theorem c10_nilsafetime_layout_witness :
    NilSafeTime (some ⟨1700000000⟩) "2006-01-02" = GoTime.format ⟨1700000000⟩ "2006-01-02" :=
  c10_nilsafetime_layout.2 ⟨1700000000⟩ "2006-01-02" (by decide)

/-- C7: getTaskLogStreamName yields the task-not-found error exactly on an
empty task list, the no-containers error exactly when the first task has
no containers, and otherwise returns the first container's name whenever
that name is populated. -/
theorem c7_log_stream_name (resp : DescribeTasksOutput) :
    (getTaskLogStreamName resp = NameResult.err "task not found" ↔ resp.tasks = [])
  ∧ (getTaskLogStreamName resp = NameResult.err "no containers found in task" ↔
      ∃ t rest, resp.tasks = t :: rest ∧ t.containers = [])
  ∧ (∀ t rest c cs n, resp.tasks = t :: rest → t.containers = c :: cs →
      c.name = some n → getTaskLogStreamName resp = NameResult.ok n) := by
  obtain ⟨tasks⟩ := resp
  cases tasks with
  | nil =>
      refine ⟨by simp [getTaskLogStreamName], ⟨fun h => ?_, fun h => ?_⟩, fun t rest c cs n h => ?_⟩
      · simp [getTaskLogStreamName] at h
      · obtain ⟨t, rest, h, _⟩ := h
        exact absurd h (by simp)
      · exact absurd h (by simp)
  | cons task taskRest =>
      obtain ⟨containers⟩ := task
      cases containers with
      | nil =>
          refine ⟨⟨fun h => ?_, fun h => ?_⟩, ⟨fun _ => ⟨⟨[]⟩, taskRest, rfl, rfl⟩, fun _ => rfl⟩,
            fun t rest c cs n h1 h2 => ?_⟩
          · simp [getTaskLogStreamName] at h
          · exact absurd h (by simp)
          · cases h1
            simp at h2
      | cons container cRest =>
          obtain ⟨name⟩ := container
          cases name with
          | none =>
              refine ⟨⟨fun h => ?_, fun h => ?_⟩, ⟨fun h => ?_, fun h => ?_⟩,
                fun t rest c cs n h1 h2 h3 => ?_⟩
              · simp [getTaskLogStreamName] at h
              · exact absurd h (by simp)
              · simp [getTaskLogStreamName] at h
              · obtain ⟨t, rest, h1, h2⟩ := h
                cases h1
                simp at h2
              · cases h1
                cases h2
                simp at h3
          | some nm =>
              refine ⟨⟨fun h => ?_, fun h => ?_⟩, ⟨fun h => ?_, fun h => ?_⟩,
                fun t rest c cs n h1 h2 h3 => ?_⟩
              · simp [getTaskLogStreamName] at h
              · exact absurd h (by simp)
              · simp [getTaskLogStreamName] at h
              · obtain ⟨t, rest, h1, h2⟩ := h
                cases h1
                simp at h2
              · cases h1
                cases h2
                have hn : nm = n := by simpa using h3
                subst hn
                rfl

theorem c7_log_stream_name_witness :
    getTaskLogStreamName ⟨[⟨[⟨some "app"⟩]⟩]⟩ = NameResult.ok "app" :=
  (c7_log_stream_name ⟨[⟨[⟨some "app"⟩]⟩]⟩).2.2 ⟨[⟨some "app"⟩]⟩ [] ⟨some "app"⟩ [] "app"
    rfl rfl rfl

/-- C8: with ECS_CLUSTER, ECS_TASK_ID or LOG_GROUP_NAME unset (empty), the
fetcher panics naming that variable having performed zero network calls,
whatever the surrounding world; with AWS_REGION unset it proceeds using
the default region us-west-2. -/
theorem c8_env_gate :
    (∀ (env : FetchEnv) (world : FetchWorld), goGetenv env.ecsCluster = "" →
        runTaskLogFetcher env world
          = (FetchOutcome.panicked "ECS_CLUSTER environment variable is required", 0))
  ∧ (∀ (env : FetchEnv) (world : FetchWorld),
        goGetenv env.ecsCluster ≠ "" → goGetenv env.ecsTaskId = "" →
        runTaskLogFetcher env world
          = (FetchOutcome.panicked "ECS_TASK_ID environment variable is required", 0))
  ∧ (∀ (env : FetchEnv) (world : FetchWorld),
        goGetenv env.ecsCluster ≠ "" → goGetenv env.ecsTaskId ≠ "" →
        goGetenv env.logGroupName = "" →
        runTaskLogFetcher env world
          = (FetchOutcome.panicked "LOG_GROUP_NAME environment variable is required", 0))
  ∧ (∀ env : FetchEnv, env.awsRegion = none →
        goGetenv env.ecsCluster ≠ "" → goGetenv env.ecsTaskId ≠ "" →
        goGetenv env.logGroupName ≠ "" →
        taskLogFetcherSetup env
          = SetupOutcome.proceed "us-west-2" (goGetenv env.ecsCluster)
              (goGetenv env.ecsTaskId) (goGetenv env.logGroupName)) := by
  refine ⟨?_, ?_, ?_, ?_⟩
  · intro env world h
    simp [runTaskLogFetcher, taskLogFetcherSetup, h]
  · intro env world h1 h2
    simp [runTaskLogFetcher, taskLogFetcherSetup, h1, h2]
  · intro env world h1 h2 h3
    simp [runTaskLogFetcher, taskLogFetcherSetup, h1, h2, h3]
  · intro env h0 h1 h2 h3
    simp [goGetenv] at h1 h2 h3
    simp [taskLogFetcherSetup, goGetenv, h0, h1, h2, h3]

theorem c8_env_gate_witness :
    runTaskLogFetcher ⟨some "us-east-1", none, some "task", some "group"⟩
        ⟨Except.error "unused", []⟩
      = (FetchOutcome.panicked "ECS_CLUSTER environment variable is required", 0)
    ∧ taskLogFetcherSetup ⟨none, some "cl", some "task", some "group"⟩
      = SetupOutcome.proceed "us-west-2" "cl" "task" "group" :=
  ⟨c8_env_gate.1 ⟨some "us-east-1", none, some "task", some "group"⟩
      ⟨Except.error "unused", []⟩ (by decide),
   c8_env_gate.2.2.2 ⟨none, some "cl", some "task", some "group"⟩ rfl
      (by decide) (by decide) (by decide)⟩

/-- C2 counterexample: the status filter sent by cloudFormationListStacks
omits UPDATE_COMPLETE_CLEANUP_IN_PROGRESS, a status distinct from
DELETE_COMPLETE, so the filter is not the full status set minus
DELETE_COMPLETE alone. -/
theorem c2_filter_counterexample :
    (cloudFormationListStacks [ApiResp.ok ⟨[], none⟩]).requests
        = [⟨none, stackStatusFilterList⟩]
  ∧ StackStatus.updateCompleteCleanupInProgress ∉ stackStatusFilterList
  ∧ StackStatus.updateCompleteCleanupInProgress ≠ StackStatus.deleteComplete
  ∧ StackStatus.deleteComplete ∉ stackStatusFilterList := by
  refine ⟨rfl, by decide, by decide, by decide⟩

/-- C2 amended: every page request carries exactly the fixed filter, that
filter is the full status set minus DELETE_COMPLETE and minus
UPDATE_COMPLETE_CLEANUP_IN_PROGRESS, and against any backend that honours
the filter no DELETE_COMPLETE stack appears in the accumulated result. -/
theorem c2_filter_amended :
    (∀ backend : List (ApiResp StackSummary),
        ∀ inp ∈ (cloudFormationListStacks backend).requests,
          inp.stackStatusFilter = stackStatusFilterList)
  ∧ (∀ s : StackStatus, s ∈ stackStatusFilterList ↔
        (s ≠ StackStatus.deleteComplete ∧ s ≠ StackStatus.updateCompleteCleanupInProgress))
  ∧ (∀ (backend : List (ApiResp StackSummary)) (items : List StackSummary),
        (cloudFormationListStacks backend).result = ListResult.ok items →
        (∀ page : Page StackSummary, ApiResp.ok page ∈ backend →
            ∀ s ∈ page.items, s.stackStatus ∈ stackStatusFilterList) →
        ∀ s ∈ items, s.stackStatus ≠ StackStatus.deleteComplete) := by
  refine ⟨?_, by decide, ?_⟩
  · intro backend inp hmem
    obtain ⟨t, rfl⟩ := runPaginated_requests_shape
      (fun tok => (⟨tok, stackStatusFilterList⟩ : ListStacksInput))
      "Unable to ListStacks: " backend none inp hmem
    rfl
  · intro backend items hres hhon s hs
    obtain ⟨page, hpage, hsp⟩ := runPaginated_ok_mem
      (fun tok => (⟨tok, stackStatusFilterList⟩ : ListStacksInput))
      "Unable to ListStacks: " backend none items hres s hs
    have hin : s.stackStatus ∈ stackStatusFilterList := hhon page hpage s hsp
    intro hdel
    rw [hdel] at hin
    exact absurd hin (by decide)

theorem c2_filter_amended_witness :
    (⟨none, stackStatusFilterList⟩ : ListStacksInput).stackStatusFilter = stackStatusFilterList
  ∧ (demoStack "A").stackStatus ≠ StackStatus.deleteComplete :=
  ⟨c2_filter_amended.1 [ApiResp.ok ⟨[demoStack "A"], none⟩] ⟨none, stackStatusFilterList⟩
      (by simp [cloudFormationListStacks, runPaginated]),
   c2_filter_amended.2.2 [ApiResp.ok ⟨[demoStack "A"], none⟩] [demoStack "A"] rfl
      (by intro page hp s hsmem
          simp at hp
          subst hp
          simp at hsmem
          subst hsmem
          decide)
      (demoStack "A") (by simp)⟩

/-- C3: against a backend serving well-formed pages, both paginated
enumerations return the in-order concatenation of all served pages, whose
length is the sum of the per-page item counts; they issue exactly one
request per served page (stopping at the nil token); and a backend serving
a single empty final page yields the empty sequence, not an error. -/
theorem c3_pagination_concat :
    (∀ pages : List (Page StackSummary), Terminated pages →
        (cloudFormationListStacks (okBackend pages)).result
            = ListResult.ok (pages.map Page.items).flatten
      ∧ (pages.map Page.items).flatten.length = (pages.map fun p => p.items.length).sum
      ∧ (cloudFormationListStacks (okBackend pages)).requests.length = pages.length)
  ∧ (∀ (sid : String) (pages : List (Page StackResourceSummary)), Terminated pages →
        (cloudFormationListStackResources sid (okBackend pages)).result
            = ListResult.ok (pages.map Page.items).flatten
      ∧ (cloudFormationListStackResources sid (okBackend pages)).requests.length = pages.length)
  ∧ (cloudFormationListStacks (okBackend [⟨[], none⟩])).result = ListResult.ok [] := by
  refine ⟨?_, ?_, rfl⟩
  · intro pages hterm
    obtain ⟨h1, h2⟩ := runPaginated_okBackend
      (fun tok => (⟨tok, stackStatusFilterList⟩ : ListStacksInput))
      "Unable to ListStacks: " hterm none
    refine ⟨h1, ?_, h2⟩
    rw [List.length_flatten, List.map_map]
    rfl
  · intro sid pages hterm
    obtain ⟨h1, h2⟩ := runPaginated_okBackend
      (fun tok => (⟨sid, tok⟩ : ListStackResourcesInput))
      "Unable to ListStacks: " hterm none
    exact ⟨h1, h2⟩

theorem c3_pagination_concat_witness :
    (cloudFormationListStacks
        (okBackend [⟨[demoStack "A"], some "tok1"⟩, ⟨[demoStack "B", demoStack "C"], none⟩])).result
      = ListResult.ok [demoStack "A", demoStack "B", demoStack "C"]
  ∧ (cloudFormationListStacks
        (okBackend [⟨[demoStack "A"], some "tok1"⟩, ⟨[demoStack "B", demoStack "C"], none⟩])).requests.length
      = 2 := by
  have h := c3_pagination_concat.1
    [⟨[demoStack "A"], some "tok1"⟩, ⟨[demoStack "B", demoStack "C"], none⟩]
    (Terminated.cons _ "tok1" rfl (Terminated.last _ rfl))
  exact ⟨h.1, h.2.2⟩

theorem processStacks_no_nilDeref (world : ScanWorld) :
    ∀ l : List StackSummary, (∀ s ∈ l, s.stackId.isSome) →
      (processStacks world l).2 ≠ some Halt.nilDeref := by
  intro l
  induction l with
  | nil =>
      intro _ h
      simp [processStacks] at h
  | cons s rest ih =>
      intro hids
      have hs : s.stackId.isSome := hids s (by simp)
      obtain ⟨sid, hsid⟩ := Option.isSome_iff_exists.mp hs
      cases hres : (cloudFormationListStackResources sid (world.resourcesBackend sid)).result with
      | fatalExit c m =>
          simp [processStacks, hsid, hres]
      | hung =>
          simp [processStacks, hsid, hres]
      | ok rs =>
          simp [processStacks, hsid, hres]
          exact ih fun x hx => hids x (List.mem_cons_of_mem s hx)

theorem processRegions_no_nilDeref (cfg : Config) (world : ScanWorld)
    (hids : StacksHaveIds (world.stacksBackend cfg.region)) :
    ∀ regions : List String, (processRegions cfg world regions).2 ≠ some Halt.nilDeref := by
  intro regions
  induction regions with
  | nil =>
      simp [processRegions]
  | cons r rest ih =>
      cases hres : (cloudFormationListStacks (world.stacksBackend cfg.region)).result with
      | fatalExit c m =>
          simp [processRegions, hres]
      | hung =>
          simp [processRegions, hres]
      | ok stackList =>
          have hall : ∀ s ∈ stackList, s.stackId.isSome := by
            intro s hsmem
            obtain ⟨page, hpage, hsp⟩ := runPaginated_ok_mem
              (fun tok => (⟨tok, stackStatusFilterList⟩ : ListStacksInput))
              "Unable to ListStacks: " (world.stacksBackend cfg.region) none stackList hres s hsmem
            exact hids page hpage s hsp
          have hps := processStacks_no_nilDeref world stackList hall
          cases hsp2 : (processStacks world stackList).2 with
          | none =>
              simp [processRegions, hres, hsp2]
              exact ih
          | some h2 =>
              cases h2 with
              | nilDeref => exact absurd hsp2 hps
              | fatal c => simp [processRegions, hres, hsp2]
              | stuck => simp [processRegions, hres, hsp2]

/-- C5 counterexample: a stack whose StackId pointer is nil has its id
line rendered with the placeholder, yet the print pass still faults,
because the resource-enumeration step dereferences the id without a
guard. -/
theorem c5_nil_id_fault_counterexample :
    (scanRegions ⟨"us-west-2"⟩ c5World ["us-west-2"]).isNilFault = true
  ∧ "  - Id: <nil>" ∈ (scanRegions ⟨"us-west-2"⟩ c5World ["us-west-2"]).logLines := by
  decide

/-- C5 amended: every nullable field the print pass passes through the
nil-safe formatters renders as the placeholder when nil, and the pass
never faults provided every listed stack has a non-nil StackId (the one
field the pass dereferences directly). -/
theorem c5_nilsafe_print_amended :
    (∀ s : StackSummary,
        (s.stackId = none → (printStackLines s)[1]? = some "  - Id: <nil>")
      ∧ (s.stackName = none → (printStackLines s)[2]? = some "  - Name: <nil>")
      ∧ (s.stackStatusReason = none → (printStackLines s)[4]? = some "  - Status Reason: <nil>")
      ∧ (s.parentId = none → (printStackLines s)[5]? = some "  - Parent Id: <nil>")
      ∧ (s.rootId = none → (printStackLines s)[6]? = some "  - Root Id: <nil>")
      ∧ (s.creationTime = none → (printStackLines s)[7]? = some "  - Creation Time: <nil>")
      ∧ (s.lastUpdatedTime = none → (printStackLines s)[8]? = some "  - Last Updated Time: <nil>")
      ∧ (s.deletionTime = none → (printStackLines s)[9]? = some "  - Deletion Time: <nil>"))
  ∧ (∀ r : StackResourceSummary,
        (r.physicalResourceId = none →
          (printResourceLines r)[1]? = some "     - Physical Resource Id: <nil>")
      ∧ (r.logicalResourceId = none →
          (printResourceLines r)[2]? = some "     - Logical Resource Id: <nil>")
      ∧ (r.resourceType = none →
          (printResourceLines r)[3]? = some "     - Resource Type: <nil>")
      ∧ (r.resourceStatusReason = none →
          (printResourceLines r)[5]? = some "     - Status Reason: <nil>")
      ∧ (r.lastUpdatedTimestamp = none →
          (printResourceLines r)[6]? = some "     - Last Updated Time: <nil>"))
  ∧ (∀ (cfg : Config) (world : ScanWorld) (regions : List String),
        StacksHaveIds (world.stacksBackend cfg.region) →
        (scanRegions cfg world regions).isNilFault = false) := by
  refine ⟨?_, ?_, ?_⟩
  · intro s
    refine ⟨fun h => ?_, fun h => ?_, fun h => ?_, fun h => ?_, fun h => ?_, fun h => ?_,
      fun h => ?_, fun h => ?_⟩ <;>
      (simp only [printStackLines]; rw [h]; rfl)
  · intro r
    refine ⟨fun h => ?_, fun h => ?_, fun h => ?_, fun h => ?_, fun h => ?_⟩ <;>
      (simp only [printResourceLines]; rw [h]; rfl)
  · intro cfg world regions hids
    have h := processRegions_no_nilDeref cfg world hids regions
    cases hpr : processRegions cfg world regions with
    | mk log halt =>
        rw [hpr] at h
        cases halt with
        | none => simp [scanRegions, hpr, ScanResult.isNilFault]
        | some h2 =>
            cases h2 with
            | nilDeref => exact absurd rfl h
            | fatal c => simp [scanRegions, hpr, ScanResult.isNilFault]
            | stuck => simp [scanRegions, hpr, ScanResult.isNilFault]

theorem c5_nilsafe_print_amended_witness :
    (printStackLines c5NilIdStack)[1]? = some "  - Id: <nil>"
  ∧ (scanRegions ⟨"us-west-2"⟩ c1World ["us-west-2"]).isNilFault = false :=
  ⟨(c5_nilsafe_print_amended.1 c5NilIdStack).1 rfl,
   c5_nilsafe_print_amended.2.2 ⟨"us-west-2"⟩ c1World ["us-west-2"]
     (by
        intro page hp s hsmem
        simp [c1World] at hp
        subst hp
        simp at hsmem
        rcases hsmem with rfl | rfl | rfl <;> decide)⟩

/-- C1 evaluation at the failing input: with stacks A, B, C in one region
and the resource listing failing for B, the run logs the error but exits
with code 1 before reaching stack C; likewise a stack-listing failure for
the first region kills the run before the second region is visited. -/
theorem c1_fatal_exit_eval :
    (scanRegions ⟨"us-west-2"⟩ c1World ["us-west-2"]).exitCode = some 1
  ∧ "Unable to ListStacks: backend failure"
      ∈ (scanRegions ⟨"us-west-2"⟩ c1World ["us-west-2"]).logLines
  ∧ "  - Id: A" ∈ (scanRegions ⟨"us-west-2"⟩ c1World ["us-west-2"]).logLines
  ∧ "  - Id: B" ∈ (scanRegions ⟨"us-west-2"⟩ c1World ["us-west-2"]).logLines
  ∧ "  - Id: C" ∉ (scanRegions ⟨"us-west-2"⟩ c1World ["us-west-2"]).logLines
  ∧ (scanRegions ⟨"us-west-2"⟩ c1WorldListErr ["us-west-2", "eu-west-1"]).exitCode = some 1
  ∧ "Unable to ListStacks: region backend failure"
      ∈ (scanRegions ⟨"us-west-2"⟩ c1WorldListErr ["us-west-2", "eu-west-1"]).logLines
  ∧ "- Region: eu-west-1"
      ∉ (scanRegions ⟨"us-west-2"⟩ c1WorldListErr ["us-west-2", "eu-west-1"]).logLines := by
  decide

/-- C4 evaluation at the failing input: with distinct stacks in us-west-2
(stack W) and eu-west-1 (stack E) and a config bound to us-west-2, both
region iterations list stack W and stack E never appears, because the
listing call receives the unchanged process-wide config instead of the
iterated region. -/
theorem c4_region_scope_eval :
    (scanRegions ⟨"us-west-2"⟩ c4World ["us-west-2", "eu-west-1"]).logLines.count "  - Id: W" = 2
  ∧ "  - Id: E" ∉ (scanRegions ⟨"us-west-2"⟩ c4World ["us-west-2", "eu-west-1"]).logLines
  ∧ "- Region: eu-west-1" ∈ (scanRegions ⟨"us-west-2"⟩ c4World ["us-west-2", "eu-west-1"]).logLines
  ∧ (scanRegions ⟨"us-west-2"⟩ c4World ["us-west-2", "eu-west-1"]).exitCode = some 0 := by
  decide

theorem printEvents_mkEvent (pg : List (Int × String)) :
    printEvents (pg.map mkEvent) = LogsOutcome.ok (pg.map renderEvent) := by
  induction pg with
  | nil => rfl
  | cons p rest ih =>
      simp [printEvents, mkEvent, ih, renderEvent]

theorem drainLogPages_ok_pages (pgs : List (List (Int × String))) :
    drainLogPages (pgs.map fun pg => Except.ok (pg.map mkEvent))
      = LogsOutcome.ok (pgs.flatten.map renderEvent) := by
  induction pgs with
  | nil => rfl
  | cons pg rest ih =>
      simp [drainLogPages, printEvents_mkEvent, ih]

/-- C9: getLogEvents always requests the window from one hour before now
to now as millisecond epochs; on a backend of successful pages of
populated events it prints one tab-separated timestamp-message line per
event, in page order; and the number of lines equals the number of
events. -/
theorem c9_log_events :
    (∀ (now : GoTime) (lg ls : String) (pages : List (Except String (List OutputLogEvent))),
        (getLogEvents now lg ls pages).1
          = ⟨lg, ls, (now.unixSec - 3600) * 1000, now.unixSec * 1000⟩)
  ∧ (∀ (now : GoTime) (lg ls : String) (pgs : List (List (Int × String))),
        (getLogEvents now lg ls (pgs.map fun pg => Except.ok (pg.map mkEvent))).2
          = LogsOutcome.ok (pgs.flatten.map renderEvent))
  ∧ (∀ pgs : List (List (Int × String)),
        (pgs.flatten.map renderEvent).length = (pgs.map List.length).sum) := by
  refine ⟨?_, ?_, ?_⟩
  · intro now lg ls pages
    simp only [getLogEvents, GoTime.addSeconds, GoTime.unix, UnixTimeFactor,
      GetLogEventsInput.mk.injEq]
    refine ⟨trivial, trivial, by ring, trivial⟩
  · intro now lg ls pgs
    simp [getLogEvents, drainLogPages_ok_pages]
  · intro pgs
    simp [Function.comp_def]
